import Mathlib

/-!
Verification development for the trunk network in
proteinfoundation/nn/protein_transformer.py.

Tensors are shallowly embedded as total functions from (batch, position, ...)
indices into the rationals; a boolean mask is a function into Bool.  The
mathematical sub-modules that the file imports from elsewhere (adaptive layer
norms, the pair-biased attention kernel, SwiGLU/linear layers, triangular
multiplicative updates, pair transitions, feature factories) are treated as
black-box operators: they appear as function-valued fields of the structures
below, and every theorem quantifies over them.  Runtime faults (attribute
errors on an absent pair tensor) are modelled by Option-valued results.
-/

namespace ProteinTransformer

/-- Token-level tensor of shape [b, n, d], indexed as (batch, position, channel). -/
abbrev Tok : Type := Nat → Nat → Nat → ℚ

/-- Pair tensor of shape [b, n, n, p], indexed as (batch, row, column, channel). -/
abbrev Pair : Type := Nat → Nat → Nat → Nat → ℚ

/-- Boolean mask of shape [b, n]. -/
abbrev Mask : Type := Nat → Nat → Bool

/-- Numeric pair mask of shape [b, n, n] (a boolean mask cast to 0/1 floats). -/
abbrev PairMaskQ : Type := Nat → Nat → Nat → ℚ

/-- A boolean as a 0/1 rational, used whenever the source multiplies a tensor
by a mask. -/
def bq (b : Bool) : ℚ := if b then 1 else 0

/-- Elementwise x * mask[..., None] on a token tensor. -/
def maskSeq (x : Tok) (m : Mask) : Tok := fun b i d => x b i d * bq (m b i)

/-- Elementwise sum of two token tensors. -/
def addTok (x y : Tok) : Tok := fun b i d => x b i d + y b i d

/-- Elementwise sum of two pair tensors. -/
def addPair (x y : Pair) : Pair := fun b i j d => x b i j d + y b i j d

/-- The outer product mask mask[:, :, None] * mask[:, None, :], as 0/1 floats:
entry (b, i, j) is mask(b,i) * mask(b,j). -/
def pairMaskOf (m : Mask) : PairMaskQ := fun b i j => bq (m b i) * bq (m b j)

/-- pair_rep * pair_mask[..., None]  (PairReprUpdate._apply_mask). -/
def applyPairMask (p : Pair) (pm : PairMaskQ) : Pair :=
  fun b i j d => p b i j d * pm b i j

/-- The structured batch consumed by the network: corrupted coordinates x_t of
shape [b, n, 3] and the boolean mask of shape [b, n].  All other batch fields
(time, self-conditioning, cath codes, ...) are consumed only by the black-box
feature factories, which are quantified over, so they need no explicit fields. -/
structure Batch where
  x_t : Tok
  mask : Mask

/-- Transition layer (feed-forward with SwiGLU), protein_transformer.py lines
291-321.  swishLinear models the Linear(dim, 2*dim_inner) + SwiGLU pair and
linearOut the output Linear(dim_inner, dim); both are black boxes.  ln is used
only when useLayerNorm is set (the source only allocates self.ln then). -/
structure Transition where
  dim : Nat
  expansionFactor : Nat
  useLayerNorm : Bool
  ln : Tok → Tok
  swishLinear : Tok → Tok
  linearOut : Tok → Tok

/-- dim_inner = dim * expansion_factor. -/
def Transition.dimInner (t : Transition) : Nat := t.dim * t.expansionFactor

/-- Transition.forward: optional layer norm, SwiGLU feed-forward, final mask. -/
def Transition.forward (t : Transition) (x : Tok) (m : Mask) : Tok :=
  let x1 := if t.useLayerNorm then t.ln x else x
  maskSeq (t.linearOut (t.swishLinear x1)) m

/-- TransitionADALN (lines 324-349): adaptive layer norm, transition, adaptive
output scale, final mask.  adaln and scale_output are black boxes taking
(x, cond, mask). -/
structure TransitionADALN where
  adaln : Tok → Tok → Mask → Tok
  transition : Transition
  scale_output : Tok → Tok → Mask → Tok

/-- TransitionADALN.forward. -/
def TransitionADALN.forward (t : TransitionADALN) (x cond : Tok) (m : Mask) : Tok :=
  maskSeq (t.scale_output (t.transition.forward (t.adaln x cond m) m) cond m) m

/-- MultiHeadBiasedAttentionADALN_MM (lines 250-286): adaptive layer norm,
pair-biased attention (black box, receives the optional pair tensor and the
outer-product pair mask), adaptive output scale, final mask. -/
structure MultiHeadBiasedAttentionADALN_MM where
  adaln : Tok → Tok → Mask → Tok
  mha : Tok → Option Pair → PairMaskQ → Tok
  scale_output : Tok → Tok → Mask → Tok

/-- MultiHeadBiasedAttentionADALN_MM.forward. -/
def MultiHeadBiasedAttentionADALN_MM.forward (a : MultiHeadBiasedAttentionADALN_MM)
    (x : Tok) (pair_rep : Option Pair) (cond : Tok) (m : Mask) : Tok :=
  maskSeq (a.scale_output (a.mha (a.adaln x cond m) pair_rep (pairMaskOf m)) cond m) m

/-- The trunk block MultiheadAttnAndTransition (lines 352-438), after
construction: the residual_transition field already reflects the forcing done
in __init__. -/
structure MultiheadAttnAndTransition where
  parallel : Bool
  residual_mha : Bool
  residual_transition : Bool
  mhba : MultiHeadBiasedAttentionADALN_MM
  transition : TransitionADALN

/-- The black-box sub-modules a trunk block is built from. -/
structure BlockInnards where
  mhba_adaln : Tok → Tok → Mask → Tok
  mhba_attn : Tok → Option Pair → PairMaskQ → Tok
  mhba_scale : Tok → Tok → Mask → Tok
  tr_adaln : Tok → Tok → Mask → Tok
  tr_swish : Tok → Tok
  tr_out : Tok → Tok
  tr_scale : Tok → Tok → Mask → Tok

/-- MultiheadAttnAndTransition.__init__ (lines 369-405): if parallel mode is
requested together with both residual flags, residual_transition is forced to
False before being stored; the inner transition uses expansion factor 4 and no
layer norm. -/
def mkMultiheadAttnAndTransition (dim_token : Nat)
    (residual_mha residual_transition parallel_mha_transition : Bool)
    (bi : BlockInnards) : MultiheadAttnAndTransition :=
  let residual_transition :=
    if parallel_mha_transition && residual_mha && residual_transition then false
    else residual_transition
  { parallel := parallel_mha_transition
    residual_mha := residual_mha
    residual_transition := residual_transition
    mhba := { adaln := bi.mhba_adaln, mha := bi.mhba_attn, scale_output := bi.mhba_scale }
    transition :=
      { adaln := bi.tr_adaln
        transition :=
          { dim := dim_token, expansionFactor := 4, useLayerNorm := false
            ln := fun x => x, swishLinear := bi.tr_swish, linearOut := bi.tr_out }
        scale_output := bi.tr_scale } }

/-- _apply_mha (lines 407-411). -/
def MultiheadAttnAndTransition._apply_mha (l : MultiheadAttnAndTransition)
    (x : Tok) (pair_rep : Option Pair) (cond : Tok) (m : Mask) : Tok :=
  let x_attn := l.mhba.forward x pair_rep cond m
  let x_attn := if l.residual_mha then addTok x_attn x else x_attn
  maskSeq x_attn m

/-- _apply_transition (lines 413-417). -/
def MultiheadAttnAndTransition._apply_transition (l : MultiheadAttnAndTransition)
    (x cond : Tok) (m : Mask) : Tok :=
  let x_tr := l.transition.forward x cond m
  let x_tr := if l.residual_transition then addTok x_tr x else x_tr
  maskSeq x_tr m

/-- MultiheadAttnAndTransition.forward (lines 419-438): mask the input, run the
two sub-paths in parallel (summed) or sequentially, mask the result. -/
def MultiheadAttnAndTransition.forward (l : MultiheadAttnAndTransition)
    (x : Tok) (pair_rep : Option Pair) (cond : Tok) (m : Mask) : Tok :=
  let x0 := maskSeq x m
  let x1 :=
    if l.parallel then
      addTok (l._apply_mha x0 pair_rep cond m) (l._apply_transition x0 cond m)
    else l._apply_transition (l._apply_mha x0 pair_rep cond m) cond m
  maskSeq x1 m

/-- PairReprUpdate after construction (lines 441-469): token_dim-to-2*pair_dim
projection linear_x, optional triangular multiplicative updates, and a final
pair transition, all black boxes except for the wiring.  The triangular and
transition sub-modules receive the pair tensor together with the 0/1 pair mask
(the checkpoint wrapper is semantically transparent). -/
structure PairReprUpdate where
  pair_dim : Nat
  use_tri_mult : Bool
  layer_norm_in : Tok → Tok
  linear_x : Tok → Tok
  tri_mult_out : Pair → PairMaskQ → Pair
  tri_mult_in : Pair → PairMaskQ → Pair
  transition_out : Pair → PairMaskQ → Pair

/-- The black-box sub-modules a PairReprUpdate is built from. -/
structure PairUpdInnards where
  layer_norm_in : Tok → Tok
  linear_x : Tok → Tok
  tri_mult_out : Pair → PairMaskQ → Pair
  tri_mult_in : Pair → PairMaskQ → Pair
  transition_out : Pair → PairMaskQ → Pair

/-- PairReprUpdate.__init__ (lines 444-469). -/
def mkPairReprUpdate (pair_dim : Nat) (use_tri_mult : Bool)
    (ui : PairUpdInnards) : PairReprUpdate :=
  { pair_dim := pair_dim, use_tri_mult := use_tri_mult
    layer_norm_in := ui.layer_norm_in, linear_x := ui.linear_x
    tri_mult_out := ui.tri_mult_out, tri_mult_in := ui.tri_mult_in
    transition_out := ui.transition_out }

/-- The first half of PairReprUpdate.forward (lines 488-496): mask the token
tensor, layer-normalize, project through linear_x (output width 2*pair_dim)
and chunk into x_proj_1 (channels below pair_dim) and x_proj_2 (channels from
pair_dim up); entry (b, i, j, d) of the pair tensor receives
x_proj_1(b, j, d) + x_proj_2(b, i, d) — x_proj_1[:, None, :, :] broadcasts
over rows, x_proj_2[:, :, None, :] over columns — then the outer-product mask
is applied. -/
def PairReprUpdate.afterOuter (u : PairReprUpdate) (x : Tok) (pair_rep : Pair)
    (m : Mask) : Pair :=
  let pm := pairMaskOf m
  let l := u.linear_x (u.layer_norm_in (maskSeq x m))
  fun b i j d => (pair_rep b i j d + l b j d + l b i (d + u.pair_dim)) * pm b i j

/-- The second half of PairReprUpdate.forward (lines 499-511): optional
outgoing/incoming triangular updates (each residual-added and masked), then
the pair transition (residual-added and masked). -/
def PairReprUpdate.refine (u : PairReprUpdate) (pair_rep : Pair) (m : Mask) : Pair :=
  let pm := pairMaskOf m
  let p1 :=
    if u.use_tri_mult then
      let pa := applyPairMask (addPair pair_rep (u.tri_mult_out pair_rep pm)) pm
      applyPairMask (addPair pa (u.tri_mult_in pa pm)) pm
    else pair_rep
  applyPairMask (addPair p1 (u.transition_out p1 pm)) pm

/-- PairReprUpdate.forward (lines 478-512). -/
def PairReprUpdate.forward (u : PairReprUpdate) (x : Tok) (pair_rep : Pair)
    (m : Mask) : Pair :=
  u.refine (u.afterOuter x pair_rep m) m

/-- PairReprBuilder (lines 515-553): the initial pair feature factory plus,
when pair conditioning features are configured, a pair conditioning factory
and an adaptive layer norm over the pair tensor; condPart bundles the latter
two (None when no pair conditioning features exist). -/
structure PairReprBuilder where
  init_repr_factory : Batch → Pair
  condPart : Option ((Batch → Pair) × (Pair → Pair → PairMaskQ → Pair))

/-- PairReprBuilder.forward (lines 546-553). -/
def PairReprBuilder.forward (pb : PairReprBuilder) (batch : Batch) : Pair :=
  let pm := pairMaskOf batch.mask
  let r := pb.init_repr_factory batch
  match pb.condPart with
  | none => r
  | some cp => cp.2 r (cp.1 batch) pm

/-- Normalization of the num_registers kwarg (lines 602-610): None or any
non-positive value becomes 0, a positive value is kept (int conversion). -/
def numRegistersNorm : Option Int → Nat
  | none => 0
  | some k => if k ≤ 0 then 0 else k.toNat

/-- _extend_w_registers (lines 714-762).  The result is none exactly when the
Python code would raise: with r > 0 the method reads pair.shape[-1] and
self.registers[None, :, :], which fault when the pair tensor or the register
parameter is absent.  With r = 0 the inputs are returned unchanged.  Otherwise
the register block is prepended to the token tensor, True entries to the mask,
and zero padding to both pair dimensions and to the conditioning tensor. -/
def extendRegisters (r : Nat) (registers : Option (Nat → Nat → ℚ)) (seqs : Tok)
    (pair_rep : Option Pair) (m : Mask) (cond_seq : Tok) :
    Option (Tok × Option Pair × Mask × Tok) :=
  if r = 0 then some (seqs, pair_rep, m, cond_seq)
  else
    match pair_rep, registers with
    | some pair, some regs =>
        some
          (fun b i d => if i < r then regs i d else seqs b (i - r) d,
           some (fun b i j d =>
             if i < r ∨ j < r then 0 else pair b (i - r) (j - r) d),
           fun b i => if i < r then true else m b (i - r),
           fun b i d => if i < r then 0 else cond_seq b (i - r) d)
    | _, _ => none

/-- _undo_registers (lines 764-779): slice the first r positions off the token
tensor, off both pair dimensions, and off the mask; identity when r = 0.  With
r > 0 and an absent pair tensor the slicing faults (none). -/
def undoRegisters (r : Nat) (seqs : Tok) (pair_rep : Option Pair) (m : Mask) :
    Option (Tok × Option Pair × Mask) :=
  if r = 0 then some (seqs, pair_rep, m)
  else
    match pair_rep with
    | some pair =>
        some (fun b i d => seqs b (i + r) d,
              some (fun b i j d => pair b (i + r) (j + r) d),
              fun b i => m b (i + r))
    | none => none

/-- The recognized kwargs of ProteinTransformerAF3.__init__ (lines 573-712),
with the source's defaults for the optional ones understood by the caller. -/
structure Kwargs where
  use_attn_pair_bias : Bool
  nlayers : Nat
  token_dim : Nat
  pair_repr_dim : Nat
  dim_cond : Nat
  nheads : Nat
  residual_mha : Bool
  residual_transition : Bool
  parallel_mha_transition : Bool
  update_pair_repr : Bool
  update_pair_repr_every_n : Nat
  use_tri_mult : Bool
  use_qkln : Bool
  num_buckets_predict_pair : Option Nat
  num_registers : Option Int

/-- The black-box learned sub-modules of the orchestrator. -/
structure Innards where
  registersParam : Nat → Nat → ℚ
  linear_3d_embed : Tok → Tok
  init_repr_factory : Batch → Tok
  cond_factory : Batch → Tok
  t1_swish : Tok → Tok
  t1_out : Tok → Tok
  t2_swish : Tok → Tok
  t2_out : Tok → Tok
  pair_builder : PairReprBuilder
  blocks : Nat → BlockInnards
  upds : Nat → PairUpdInnards
  pair_head : Pair → Pair
  coors_3d_decoder : Tok → Tok
  meanF : Pair → ℚ

/-- ProteinTransformerAF3 after construction.  mean models torch.mean, used
only in the gradient-carrying zero term of the auxiliary head. -/
structure ProteinTransformerAF3 where
  use_attn_pair_bias : Bool
  nlayers : Nat
  update_pair_repr : Bool
  update_pair_repr_every_n : Nat
  num_buckets_predict_pair : Option Nat
  num_registers : Nat
  registers : Option (Nat → Nat → ℚ)
  linear_3d_embed : Tok → Tok
  init_repr_factory : Batch → Tok
  cond_factory : Batch → Tok
  transition_c_1 : Transition
  transition_c_2 : Transition
  pair_repr_builder : Option PairReprBuilder
  transformer_layers : Nat → MultiheadAttnAndTransition
  pair_update_layers : Nat → Option PairReprUpdate
  pair_head_prediction : Option (Pair → Pair)
  coors_3d_decoder : Tok → Tok
  mean : Pair → ℚ

/-- ProteinTransformerAF3.__init__ (lines 573-712): normalizes num_registers
(register parameter allocated only when positive), forces update_pair_repr to
False when pair bias is disabled (then no pair builder is allocated), builds
the two conditioning transitions with expansion factor 2 and no layer norm,
the trunk blocks, the pair update layers (an entry for block i below
nlayers - 1, populated when i is a multiple of update_pair_repr_every_n, and
only when updates are enabled), and the auxiliary distogram head (only when
updates are enabled and a bucket count is configured). -/
def mkProteinTransformerAF3 (kw : Kwargs) (inn : Innards) : ProteinTransformerAF3 :=
  let r := numRegistersNorm kw.num_registers
  let upd := if kw.use_attn_pair_bias then kw.update_pair_repr else false
  { use_attn_pair_bias := kw.use_attn_pair_bias
    nlayers := kw.nlayers
    update_pair_repr := upd
    update_pair_repr_every_n := kw.update_pair_repr_every_n
    num_buckets_predict_pair := kw.num_buckets_predict_pair
    num_registers := r
    registers := if r = 0 then none else some inn.registersParam
    linear_3d_embed := inn.linear_3d_embed
    init_repr_factory := inn.init_repr_factory
    cond_factory := inn.cond_factory
    transition_c_1 :=
      { dim := kw.dim_cond, expansionFactor := 2, useLayerNorm := false
        ln := fun x => x, swishLinear := inn.t1_swish, linearOut := inn.t1_out }
    transition_c_2 :=
      { dim := kw.dim_cond, expansionFactor := 2, useLayerNorm := false
        ln := fun x => x, swishLinear := inn.t2_swish, linearOut := inn.t2_out }
    pair_repr_builder := if kw.use_attn_pair_bias then some inn.pair_builder else none
    transformer_layers := fun i =>
      mkMultiheadAttnAndTransition kw.token_dim kw.residual_mha
        kw.residual_transition kw.parallel_mha_transition (inn.blocks i)
    pair_update_layers := fun i =>
      if upd && decide (i < kw.nlayers - 1) &&
          decide (i % kw.update_pair_repr_every_n = 0) then
        some (mkPairReprUpdate kw.pair_repr_dim kw.use_tri_mult (inn.upds i))
      else none
    pair_head_prediction :=
      if upd && kw.num_buckets_predict_pair.isSome then some inn.pair_head else none
    coors_3d_decoder := inn.coors_3d_decoder
    mean := inn.meanF }

/-- The output dictionary of forward: coors_pred always, pair_pred optionally. -/
structure ForwardOut where
  pair_pred : Option Pair
  coors_pred : Tok

/-- The conditioning tensor of one forward pass (lines 801-802): the
conditioning feature factory followed by the two transitions, each masked. -/
def ProteinTransformerAF3.condAfterTransitions (M : ProteinTransformerAF3)
    (batch : Batch) : Tok :=
  M.transition_c_2.forward
    (M.transition_c_1.forward (M.cond_factory batch) batch.mask) batch.mask

/-- One iteration of the trunk loop (lines 822-843): run block i, then run the
pair update when updates are enabled, i is below nlayers - 1 and the stored
update layer for i exists.  A firing update with an absent pair tensor would
fault (none). -/
def ProteinTransformerAF3.trunkStep (M : ProteinTransformerAF3) (c : Tok)
    (m : Mask) (i : Nat) (st : Tok × Option Pair) : Option (Tok × Option Pair) :=
  let seqs := (M.transformer_layers i).forward st.1 st.2 c m
  if M.update_pair_repr then
    if i < M.nlayers - 1 then
      match M.pair_update_layers i with
      | some u =>
          match st.2 with
          | some p => some (seqs, some (u.forward seqs p m))
          | none => none
      | none => some (seqs, st.2)
    else some (seqs, st.2)
  else some (seqs, st.2)

/-- The trunk loop: n steps, indices 0 to n-1 in order. -/
def ProteinTransformerAF3.trunkRun (M : ProteinTransformerAF3) (c : Tok)
    (m : Mask) : Nat → (Tok × Option Pair) → Option (Tok × Option Pair)
  | 0, st => some st
  | n + 1, st => (M.trunkRun c m n st).bind fun st1 => M.trunkStep c m n st1

/-- ProteinTransformerAF3.forward (lines 782-862) given the already-computed
conditioning tensor: embed the masked coordinates, fuse with the initial
feature representation, build the pair tensor when pair bias is enabled,
extend with registers, run the trunk, undo registers, decode coordinates, and
attach the auxiliary distogram prediction when update_pair_repr and a bucket
count are both set (adding the mean * 0 gradient-carrying term and re-masking
the coordinates in that case). -/
def ProteinTransformerAF3.forwardGivenCond (M : ProteinTransformerAF3)
    (batch : Batch) (c : Tok) : Option ForwardOut :=
  let m := batch.mask
  let coors_3d := maskSeq batch.x_t m
  let coors_embed := maskSeq (M.linear_3d_embed coors_3d) m
  let seqs := maskSeq (addTok coors_embed (M.init_repr_factory batch)) m
  let pair0 : Option Pair := M.pair_repr_builder.map fun pb => pb.forward batch
  match extendRegisters M.num_registers M.registers seqs pair0 m c with
  | none => none
  | some (seqs1, pair1, m1, c1) =>
    match M.trunkRun c1 m1 M.nlayers (seqs1, pair1) with
    | none => none
    | some (seqs2, pair2) =>
      match undoRegisters M.num_registers seqs2 pair2 m1 with
      | none => none
      | some (seqs3, pair3, m3) =>
        let final_coors := maskSeq (M.coors_3d_decoder seqs3) m3
        if M.update_pair_repr && M.num_buckets_predict_pair.isSome then
          match M.pair_head_prediction, pair3 with
          | some head, some p =>
              let pair_pred := head p
              some { pair_pred := some pair_pred
                     coors_pred :=
                       maskSeq
                         (fun b i k => final_coors b i k + M.mean pair_pred * 0) m3 }
          | _, _ => none
        else some { pair_pred := none, coors_pred := final_coors }

/-- ProteinTransformerAF3.forward: the conditioning tensor is built once and
threaded through the whole pass. -/
def ProteinTransformerAF3.forward (M : ProteinTransformerAF3)
    (batch : Batch) : Option ForwardOut :=
  M.forwardGivenCond batch (M.condAfterTransitions batch)

/-- The guard of lines 838-840 as a single boolean: a pair update actually
runs after block i. -/
def ProteinTransformerAF3.pairUpdateRuns (M : ProteinTransformerAF3)
    (i : Nat) : Bool :=
  M.update_pair_repr && decide (i < M.nlayers - 1) && (M.pair_update_layers i).isSome

/-! Concrete instances used to evaluate the development on explicit inputs. -/

/-- All-ones token tensor. -/
def constTok : Tok := fun _ _ _ => 1

/-- All-ones pair tensor. -/
def constPair : Pair := fun _ _ _ _ => 1

/-- Identity operator on token tensors. -/
def idTokF : Tok → Tok := fun x => x

/-- A concrete batch whose mask is true only at position 0 of every sample. -/
def batchW : Batch := { x_t := constTok, mask := fun _ i => decide (i = 0) }

/-- The mask of batchW. -/
def maskW : Mask := batchW.mask

/-- A concrete register parameter. -/
def regW : Nat → Nat → ℚ := fun _ _ => 1

/-- Concrete trunk block sub-modules. -/
def blockInnW : BlockInnards :=
  { mhba_adaln := fun x _ _ => x, mhba_attn := fun x _ _ => x
    mhba_scale := fun x _ _ => x, tr_adaln := fun x _ _ => x
    tr_swish := idTokF, tr_out := idTokF, tr_scale := fun x _ _ => x }

/-- Concrete pair-update sub-modules. -/
def updInnW : PairUpdInnards :=
  { layer_norm_in := idTokF, linear_x := idTokF
    tri_mult_out := fun p _ => p, tri_mult_in := fun p _ => p
    transition_out := fun p _ => p }

/-- Concrete pair builder without pair conditioning. -/
def builderW : PairReprBuilder :=
  { init_repr_factory := fun _ => constPair, condPart := none }

/-- Concrete orchestrator sub-modules. -/
def innW : Innards :=
  { registersParam := regW, linear_3d_embed := idTokF
    init_repr_factory := fun _ => constTok, cond_factory := fun _ => constTok
    t1_swish := idTokF, t1_out := idTokF, t2_swish := idTokF, t2_out := idTokF
    pair_builder := builderW, blocks := fun _ => blockInnW
    upds := fun _ => updInnW, pair_head := fun p => p
    coors_3d_decoder := idTokF, meanF := fun _ => 0 }

/-- A baseline configuration: one layer, pair bias on, no registers, no pair
updates, no auxiliary head. -/
def kwBase : Kwargs :=
  { use_attn_pair_bias := true, nlayers := 1, token_dim := 4, pair_repr_dim := 2
    dim_cond := 3, nheads := 2, residual_mha := true, residual_transition := true
    parallel_mha_transition := false, update_pair_repr := false
    update_pair_repr_every_n := 2, use_tri_mult := false, use_qkln := false
    num_buckets_predict_pair := none, num_registers := none }

/-- Baseline model. -/
def MW1 : ProteinTransformerAF3 := mkProteinTransformerAF3 kwBase innW

/-- The output of the baseline model on batchW. -/
def outW1 : ForwardOut :=
  (MW1.forward batchW).getD { pair_pred := none, coors_pred := constTok }

/-- Scheduling configuration: 6 layers, updates every 2. -/
def kwW3 : Kwargs := { kwBase with nlayers := 6, update_pair_repr := true }

/-- Scheduling model. -/
def MW3 : ProteinTransformerAF3 := mkProteinTransformerAF3 kwW3 innW

/-- Registers without pair bias: the faulting configuration. -/
def kwW5 : Kwargs :=
  { kwBase with use_attn_pair_bias := false, num_registers := some 1 }

/-- Faulting model for the register/no-pair interaction. -/
def MW5 : ProteinTransformerAF3 := mkProteinTransformerAF3 kwW5 innW

/-- Registers without pair bias, separate instance. -/
def kwW6 : Kwargs :=
  { kwBase with use_attn_pair_bias := false, num_registers := some 1 }

/-- Faulting model used against the no-pair-bias degradation claim. -/
def MW6 : ProteinTransformerAF3 := mkProteinTransformerAF3 kwW6 innW

/-- No pair bias, no registers: the benign degradation configuration. -/
def kwC6 : Kwargs := { kwBase with use_attn_pair_bias := false }

/-- Model for the benign no-pair-bias configuration. -/
def MW6a : ProteinTransformerAF3 := mkProteinTransformerAF3 kwC6 innW

/-- The output of MW6a on batchW. -/
def outW6 : ForwardOut :=
  (MW6a.forward batchW).getD { pair_pred := none, coors_pred := constTok }

/-- Buckets configured but pair updates not requested. -/
def kwW8c : Kwargs := { kwBase with num_buckets_predict_pair := some 5 }

/-- Model with buckets configured and updates disabled. -/
def MW8c : ProteinTransformerAF3 := mkProteinTransformerAF3 kwW8c innW

/-- Buckets configured and pair updates enabled. -/
def kwW8a : Kwargs :=
  { kwBase with num_buckets_predict_pair := some 5, update_pair_repr := true }

/-- Model with buckets configured and updates enabled. -/
def MW8a : ProteinTransformerAF3 := mkProteinTransformerAF3 kwW8a innW

/-- The output of MW8a on batchW. -/
def outW8 : ForwardOut :=
  (MW8a.forward batchW).getD { pair_pred := none, coors_pred := constTok }

/-! Shared lemmas. -/

/-- Masking a token tensor zeroes every channel of a masked position. -/
theorem maskSeq_of_false {m : Mask} {b i : Nat} (h : m b i = false)
    (x : Tok) (d : Nat) : maskSeq x m b i d = 0 := by
  simp [maskSeq, bq, h]

/-- The outer-product pair mask vanishes when either endpoint is masked. -/
theorem pairMaskOf_of_false {m : Mask} {b i j : Nat}
    (h : m b i = false ∨ m b j = false) : pairMaskOf m b i j = 0 := by
  rcases h with h | h <;> simp [pairMaskOf, bq, h]

/-- Applying a pair mask zeroes cells where the mask vanishes. -/
theorem applyPairMask_of_zero {pm : PairMaskQ} {b i j : Nat}
    (h : pm b i j = 0) (p : Pair) (d : Nat) : applyPairMask p pm b i j d = 0 := by
  simp [applyPairMask, h]

/-- isSome of a boolean-guarded some. -/
theorem isSome_boolIf {α : Type} (c : Bool) (a : α) :
    (if c then some a else none).isSome = c := by
  cases c <;> simp

/-- Round trip of the mask through register extension and removal: whatever
tensors the undo step receives, the mask it returns agrees with the original
mask at every index. -/
theorem extend_undo_mask {r : Nat} {registers : Option (Nat → Nat → ℚ)}
    {seqs : Tok} {pair_rep : Option Pair} {m : Mask} {cond_seq : Tok}
    {s1 : Tok} {p1 : Option Pair} {m1 : Mask} {c1 : Tok}
    (hE : extendRegisters r registers seqs pair_rep m cond_seq = some (s1, p1, m1, c1))
    {s2 : Tok} {p2 : Option Pair} {s3 : Tok} {p3 : Option Pair} {m3 : Mask}
    (hU : undoRegisters r s2 p2 m1 = some (s3, p3, m3)) (b i : Nat) :
    m3 b i = m b i := by
  by_cases hr : r = 0
  · subst hr
    simp only [extendRegisters, if_pos rfl, Option.some.injEq, Prod.mk.injEq] at hE
    simp only [undoRegisters, if_pos rfl, Option.some.injEq, Prod.mk.injEq] at hU
    obtain ⟨-, -, rfl, -⟩ := hE
    obtain ⟨-, -, rfl⟩ := hU
    rfl
  · simp only [extendRegisters, if_neg hr] at hE
    simp only [undoRegisters, if_neg hr] at hU
    cases pair_rep with
    | none => simp at hE
    | some pair =>
      cases registers with
      | none => simp at hE
      | some regs =>
        simp only [Option.some.injEq, Prod.mk.injEq] at hE
        obtain ⟨-, -, rfl, -⟩ := hE
        cases p2 with
        | none => simp at hU
        | some p =>
          simp only [Option.some.injEq, Prod.mk.injEq] at hU
          obtain ⟨-, -, rfl⟩ := hU
          show (if i + r < r then true else m b (i + r - r)) = m b i
          rw [if_neg (by omega), Nat.add_sub_cancel]

/-- With pair updates disabled a trunk step only runs the block. -/
theorem trunkStep_no_upd {M : ProteinTransformerAF3}
    (h : M.update_pair_repr = false) (c : Tok) (m : Mask) (i : Nat)
    (st : Tok × Option Pair) :
    M.trunkStep c m i st =
      some ((M.transformer_layers i).forward st.1 st.2 c m, st.2) := by
  simp [ProteinTransformerAF3.trunkStep, h]

/-- With pair updates disabled the trunk succeeds and never changes the pair
component. -/
theorem trunkRun_no_upd {M : ProteinTransformerAF3}
    (h : M.update_pair_repr = false) (c : Tok) (m : Mask) :
    ∀ (n : Nat) (st : Tok × Option Pair),
      ∃ s, M.trunkRun c m n st = some (s, st.2) := by
  intro n
  induction n with
  | zero => exact fun st => ⟨st.1, rfl⟩
  | succ k ih =>
      intro st
      obtain ⟨s, hs⟩ := ih st
      exact ⟨(M.transformer_layers k).forward s st.2 c m,
        by simp [ProteinTransformerAF3.trunkRun, hs, trunkStep_no_upd h]⟩

/-- Whenever a forward pass (with any conditioning tensor) succeeds, its
predicted coordinates are a masked tensor of a mask that agrees with the
batch mask everywhere. -/
theorem forwardGivenCond_coors_shape (M : ProteinTransformerAF3) (batch : Batch)
    (c : Tok) (out : ForwardOut) (h : M.forwardGivenCond batch c = some out) :
    ∃ (F : Tok) (m3 : Mask), (∀ b i, m3 b i = batch.mask b i) ∧
      out.coors_pred = maskSeq F m3 := by
  simp only [ProteinTransformerAF3.forwardGivenCond] at h
  split at h
  · exact absurd h (by simp)
  next seqs1 pair1 m1 c1 hE =>
    split at h
    · exact absurd h (by simp)
    next seqs2 pair2 hT =>
      split at h
      · exact absurd h (by simp)
      next seqs3 pair3 m3 hU =>
        have hm : ∀ b i, m3 b i = batch.mask b i :=
          fun b i => extend_undo_mask hE hU b i
        split at h
        · split at h <;>
            first
            | (obtain rfl := Option.some.inj h
               exact ⟨_, m3, hm, rfl⟩)
            | exact absurd h (by simp)
        · obtain rfl := Option.some.inj h
          exact ⟨_, m3, hm, rfl⟩

/-- On a constructed model, the pair-update guard is: updates enabled (after
reconciliation), block below the last, block index a multiple of the period. -/
theorem pairUpdateRuns_mk (kw : Kwargs) (inn : Innards) (i : Nat) :
    (mkProteinTransformerAF3 kw inn).pairUpdateRuns i =
      ((if kw.use_attn_pair_bias then kw.update_pair_repr else false) &&
        decide (i < kw.nlayers - 1) &&
        decide (i % kw.update_pair_repr_every_n = 0)) := by
  simp only [ProteinTransformerAF3.pairUpdateRuns, mkProteinTransformerAF3,
    isSome_boolIf]
  generalize (if kw.use_attn_pair_bias then kw.update_pair_repr else false) = a
  generalize decide (i < kw.nlayers - 1) = b1
  generalize decide (i % kw.update_pair_repr_every_n = 0) = b2
  cases a <;> cases b1 <;> cases b2 <;> rfl

/-! Claim theorems. -/

/-- Claim C1 (mask invariance): whenever a forward pass succeeds, the returned
coors_pred is exactly zero at every position where the batch mask is False;
moreover the intermediate token tensor produced by every trunk block is zero
at every masked position, and the pair tensor produced by every pair update is
zero at every cell either of whose endpoints is masked. -/
theorem mask_invariance_of_forward :
    (∀ (M : ProteinTransformerAF3) (batch : Batch) (out : ForwardOut),
        M.forward batch = some out →
        ∀ b i k, batch.mask b i = false → out.coors_pred b i k = 0) ∧
    (∀ (L : MultiheadAttnAndTransition) (x : Tok) (pr : Option Pair) (c : Tok)
        (m : Mask) (b i d : Nat), m b i = false → L.forward x pr c m b i d = 0) ∧
    (∀ (u : PairReprUpdate) (x : Tok) (p : Pair) (m : Mask) (b i j d : Nat),
        m b i = false ∨ m b j = false → u.forward x p m b i j d = 0) := by
  refine ⟨?_, ?_, ?_⟩
  · intro M batch out h b i k hm
    obtain ⟨F, m3, hagree, hout⟩ := forwardGivenCond_coors_shape M batch _ out h
    rw [hout]
    exact maskSeq_of_false ((hagree b i).trans hm) F k
  · intro L x pr c m b i d hm
    exact maskSeq_of_false hm _ d
  · intro u x p m b i j d hm
    exact applyPairMask_of_zero (pairMaskOf_of_false hm) _ d

/-- Witness for C1 at a concrete model, batch and indices. -/
theorem mask_invariance_of_forward_witness :
    (MW1.forward batchW = some outW1 ∧ batchW.mask 0 1 = false ∧
      outW1.coors_pred 0 1 0 = 0) ∧
    (mkMultiheadAttnAndTransition 4 true true false blockInnW).forward
      constTok none constTok maskW 0 1 0 = 0 ∧
    (mkPairReprUpdate 2 false updInnW).forward constTok constPair maskW 0 1 0 0 = 0 :=
  ⟨⟨rfl, rfl, mask_invariance_of_forward.1 MW1 batchW outW1 rfl 0 1 0 rfl⟩,
    mask_invariance_of_forward.2.1 (mkMultiheadAttnAndTransition 4 true true false
      blockInnW) constTok none constTok maskW 0 1 0 rfl,
    mask_invariance_of_forward.2.2 (mkPairReprUpdate 2 false updInnW) constTok
      constPair maskW 0 1 0 0 (Or.inl rfl)⟩

/-- Counterexample to C2 as stated: at the tuple with an absent pair tensor
and one register, extending and immediately undoing does not return the
original (seqs, pair, mask) — the extension faults on the absent pair tensor
instead. -/
theorem register_round_trip_counterexample :
    (extendRegisters 1 (some regW) constTok none maskW constTok).bind
        (fun t => undoRegisters 1 t.1 t.2.1 t.2.2.1) ≠
      some (constTok, (none : Option Pair), maskW) :=
  fun h => Option.noConfusion h

/-- Claim C2 amended (register transparency): extending a (seqs, pair, mask,
cond) tuple with registers and immediately undoing the extension returns the
original seqs, pair and mask exactly whenever the pair tensor is present;
with zero registers both operations return their inputs unchanged, for any
tuple including an absent pair tensor; with a positive register count and an
absent pair tensor the round trip faults in the extension step instead of
returning the originals. -/
theorem register_round_trip :
    (∀ (r : Nat) (regs : Nat → Nat → ℚ) (seqs : Tok) (p : Pair) (m : Mask)
        (cond : Tok),
        (extendRegisters r (some regs) seqs (some p) m cond).bind
            (fun t => undoRegisters r t.1 t.2.1 t.2.2.1) = some (seqs, some p, m)) ∧
    (∀ (regs : Option (Nat → Nat → ℚ)) (seqs : Tok) (pr : Option Pair) (m : Mask)
        (cond : Tok),
        extendRegisters 0 regs seqs pr m cond = some (seqs, pr, m, cond) ∧
        undoRegisters 0 seqs pr m = some (seqs, pr, m)) ∧
    (∀ (r : Nat) (regs : Option (Nat → Nat → ℚ)) (seqs : Tok) (m : Mask)
        (cond : Tok),
        (extendRegisters (r + 1) regs seqs none m cond).bind
            (fun t => undoRegisters (r + 1) t.1 t.2.1 t.2.2.1) = none) := by
  refine ⟨?_, ?_, ?_⟩
  · intro r regs seqs p m cond
    by_cases hr : r = 0
    · subst hr
      simp [extendRegisters, undoRegisters]
    · simp only [extendRegisters, undoRegisters, if_neg hr, Option.bind_eq_bind,
        Option.some_bind, Option.some.injEq, Prod.mk.injEq]
      refine ⟨?_, ?_, ?_⟩
      · funext b i d
        show (if i + r < r then regs (i + r) d else seqs b (i + r - r) d) = seqs b i d
        rw [if_neg (by omega), Nat.add_sub_cancel]
      · funext b i j d
        show (if i + r < r ∨ j + r < r then 0
          else p b (i + r - r) (j + r - r) d) = p b i j d
        rw [if_neg (by omega), Nat.add_sub_cancel, Nat.add_sub_cancel]
      · funext b i
        show (if i + r < r then true else m b (i + r - r)) = m b i
        rw [if_neg (by omega), Nat.add_sub_cancel]
  · intro regs seqs pr m cond
    exact ⟨by simp [extendRegisters], by simp [undoRegisters]⟩
  · intro r regs seqs m cond
    cases regs <;> simp [extendRegisters]

/-- Claim C4 (parallel residual exclusivity): requesting parallel mode with
both residual flags yields a block whose stored residual_transition is False,
and whose transition sub-path is the bare masked transition, with no extra
copy of the input added, on every call. -/
theorem parallel_residual_exclusive :
    ∀ (dim_token : Nat) (bi : BlockInnards) (x cond : Tok) (m : Mask),
      (mkMultiheadAttnAndTransition dim_token true true true bi).residual_transition
          = false ∧
      (mkMultiheadAttnAndTransition dim_token true true true bi)._apply_transition
          x cond m =
        maskSeq ((mkMultiheadAttnAndTransition dim_token true true
          true bi).transition.forward x cond m) m := by
  intro dim_token bi x cond m
  exact ⟨rfl, rfl⟩

/-- Claim C7 (pair updater outer-sum step): the first stage of
PairReprUpdate.forward masks and normalizes the token tensor, projects it, and
adds to entry (b, i, j) the first-chunk projection of token j and the
second-chunk projection of token i, then applies the outer-product mask; the
full forward is that stage followed by the triangular/transition refinement. -/
theorem pair_update_outer_sum :
    ∀ (u : PairReprUpdate) (x : Tok) (p : Pair) (m : Mask),
      (∀ b i j d,
          u.afterOuter x p m b i j d =
            if m b i = true ∧ m b j = true then
              p b i j d + u.linear_x (u.layer_norm_in (maskSeq x m)) b j d +
                u.linear_x (u.layer_norm_in (maskSeq x m)) b i (d + u.pair_dim)
            else 0) ∧
      u.forward x p m = u.refine (u.afterOuter x p m) m := by
  intro u x p m
  refine ⟨fun b i j d => ?_, rfl⟩
  cases hi : m b i <;> cases hj : m b j <;>
    simp [PairReprUpdate.afterOuter, pairMaskOf, bq, hi, hj]

/-- Claim C3 (pair-update scheduling): a pair update runs after block i
exactly when updates are enabled, i is below nlayers - 1, and i is a multiple
of update_pair_repr_every_n; with nlayers 6 and period 2 it runs exactly at
blocks 0, 2 and 4 and never at block 5; and when the guard is false, the trunk
step leaves the pair tensor untouched. -/
theorem pair_update_schedule :
    (∀ (kw : Kwargs) (inn : Innards) (i : Nat),
        (mkProteinTransformerAF3 kw inn).pairUpdateRuns i =
          ((mkProteinTransformerAF3 kw inn).update_pair_repr &&
            decide (i < kw.nlayers - 1) &&
            decide (i % kw.update_pair_repr_every_n = 0))) ∧
    (∀ (kw : Kwargs) (inn : Innards) (i : Nat),
        (mkProteinTransformerAF3
            { kw with
              nlayers := 6
              update_pair_repr_every_n := 2
              use_attn_pair_bias := true
              update_pair_repr := true }
            inn).pairUpdateRuns i = decide (i = 0 ∨ i = 2 ∨ i = 4)) ∧
    (∀ (kw : Kwargs) (inn : Innards) (c : Tok) (m : Mask) (i : Nat)
        (st : Tok × Option Pair),
        (mkProteinTransformerAF3 kw inn).pairUpdateRuns i = false →
        (mkProteinTransformerAF3 kw inn).trunkStep c m i st =
          some (((mkProteinTransformerAF3 kw inn).transformer_layers i).forward
            st.1 st.2 c m, st.2)) := by
  refine ⟨fun kw inn i => pairUpdateRuns_mk kw inn i, ?_, ?_⟩
  · intro kw inn i
    rw [pairUpdateRuns_mk]
    show (true && decide (i < 6 - 1) && decide (i % 2 = 0)) =
      decide (i = 0 ∨ i = 2 ∨ i = 4)
    rw [Bool.true_and]
    by_cases h1 : i < 6 - 1 <;> by_cases h2 : i % 2 = 0 <;>
      simp [h1, h2,
        show (i = 0 ∨ i = 2 ∨ i = 4) ↔ (i < 6 - 1 ∧ i % 2 = 0) from by omega]
  · intro kw inn c m i st h
    cases hu : (mkProteinTransformerAF3 kw inn).update_pair_repr with
    | false => simp [ProteinTransformerAF3.trunkStep, hu]
    | true =>
      by_cases hi : i < (mkProteinTransformerAF3 kw inn).nlayers - 1
      · cases ho : (mkProteinTransformerAF3 kw inn).pair_update_layers i with
        | none => simp [ProteinTransformerAF3.trunkStep, hu, hi, ho]
        | some u =>
          rw [ProteinTransformerAF3.pairUpdateRuns, hu, ho] at h
          simp [hi] at h
      · simp [ProteinTransformerAF3.trunkStep, hu, hi]

/-- Witness for C3: with 6 layers and period 2 no update runs after the last
block, one runs after block 4, and the block-5 trunk step returns the pair
tensor unchanged. -/
theorem pair_update_schedule_witness :
    MW3.trunkStep constTok maskW 5 (constTok, none) =
      some ((MW3.transformer_layers 5).forward constTok none constTok maskW,
        none) ∧
    MW3.pairUpdateRuns 4 = true ∧ MW3.pairUpdateRuns 5 = false :=
  ⟨pair_update_schedule.2.2 kwW3 innW constTok maskW 5 (constTok, none) rfl,
    rfl, rfl⟩

/-- Claim C10 (non-positive register counts): a num_registers kwarg that is
None or non-positive normalizes to 0, allocates no register parameter, and
register extension and removal at 0 registers return their inputs unchanged. -/
theorem nonpositive_registers_normalized :
    numRegistersNorm none = 0 ∧
    (∀ k : Nat, numRegistersNorm (some (-(k : Int))) = 0) ∧
    (∀ (kw : Kwargs) (inn : Innards) (k : Nat),
        (mkProteinTransformerAF3 { kw with num_registers := some (-(k : Int)) }
            inn).num_registers = 0 ∧
        (mkProteinTransformerAF3 { kw with num_registers := some (-(k : Int)) }
            inn).registers = none ∧
        (mkProteinTransformerAF3 { kw with num_registers := none }
            inn).num_registers = 0 ∧
        (mkProteinTransformerAF3 { kw with num_registers := none }
            inn).registers = none) ∧
    (∀ (regs : Option (Nat → Nat → ℚ)) (seqs : Tok) (pr : Option Pair)
        (m : Mask) (cond : Tok),
        extendRegisters 0 regs seqs pr m cond = some (seqs, pr, m, cond) ∧
        undoRegisters 0 seqs pr m = some (seqs, pr, m)) := by
  have hneg : ∀ k : Nat, numRegistersNorm (some (-(k : Int))) = 0 := by
    intro k
    simp only [numRegistersNorm]
    rw [if_pos (by omega)]
  refine ⟨rfl, hneg, ?_, ?_⟩
  · intro kw inn k
    refine ⟨?_, ?_, rfl, rfl⟩ <;>
      simp [mkProteinTransformerAF3, hneg k]
  · intro regs seqs pr m cond
    exact ⟨by simp [extendRegisters], by simp [undoRegisters]⟩

/-- Claim C5 evaluated on the code: with one register and an absent pair
tensor, _extend_w_registers faults (it reads pair.shape on the absent
tensor), and the forward pass of a model configured with registers but
without pair bias faults the same way instead of completing. -/
theorem extend_registers_faults_on_absent_pair :
    extendRegisters 1 (some regW) constTok none maskW constTok = none ∧
    MW5.forward batchW = none :=
  ⟨rfl, rfl⟩

/-- Counterexample to C6 as stated: with pair bias disabled and one register
the forward pass faults in _extend_w_registers before the trunk runs, so no
token tensor is produced. -/
theorem no_pair_bias_with_registers_faults :
    kwW6.use_attn_pair_bias = false ∧ MW6.forward batchW = none :=
  ⟨rfl, rfl⟩

/-- Claim C6 amended: disabling pair bias forces update_pair_repr off at
construction and allocates no pair builder; every trunk step then leaves the
pair tensor untouched; and provided num_registers normalizes to 0, the
forward pass completes with the pair tensor absent throughout and no
pair_pred in the output. -/
theorem no_pair_bias_reconciliation :
    ∀ (kw : Kwargs) (inn : Innards) (batch : Batch),
      kw.use_attn_pair_bias = false →
      numRegistersNorm kw.num_registers = 0 →
      (mkProteinTransformerAF3 kw inn).update_pair_repr = false ∧
      (mkProteinTransformerAF3 kw inn).pair_repr_builder = none ∧
      (∀ (c : Tok) (m : Mask) (i : Nat) (st : Tok × Option Pair),
          (mkProteinTransformerAF3 kw inn).trunkStep c m i st =
            some (((mkProteinTransformerAF3 kw inn).transformer_layers i).forward
              st.1 st.2 c m, st.2)) ∧
      ∃ out, (mkProteinTransformerAF3 kw inn).forward batch = some out ∧
        out.pair_pred = none := by
  intro kw inn batch hbias hreg
  have hupd : (mkProteinTransformerAF3 kw inn).update_pair_repr = false := by
    simp [mkProteinTransformerAF3, hbias]
  have hr : (mkProteinTransformerAF3 kw inn).num_registers = 0 := by
    simp [mkProteinTransformerAF3, hreg]
  have hpb : (mkProteinTransformerAF3 kw inn).pair_repr_builder = none := by
    simp [mkProteinTransformerAF3, hbias]
  refine ⟨hupd, hpb, fun c m i st => trunkStep_no_upd hupd c m i st, ?_⟩
  obtain ⟨s, hs⟩ := trunkRun_no_upd hupd
    ((mkProteinTransformerAF3 kw inn).condAfterTransitions batch) batch.mask
    (mkProteinTransformerAF3 kw inn).nlayers
    (maskSeq (addTok
        (maskSeq ((mkProteinTransformerAF3 kw inn).linear_3d_embed
          (maskSeq batch.x_t batch.mask)) batch.mask)
        ((mkProteinTransformerAF3 kw inn).init_repr_factory batch)) batch.mask,
      none)
  refine ⟨{ pair_pred := none
            coors_pred :=
              maskSeq ((mkProteinTransformerAF3 kw inn).coors_3d_decoder s)
                batch.mask }, ?_, rfl⟩
  simp only [ProteinTransformerAF3.forward, ProteinTransformerAF3.forwardGivenCond,
    hpb, Option.map, hr, extendRegisters, if_pos, hs, undoRegisters, hupd,
    Bool.false_and, Bool.false_eq_true, if_false]

/-- Witness for C6 amended, on a register-free model without pair bias. -/
theorem no_pair_bias_reconciliation_witness :
    MW6a.update_pair_repr = false ∧ MW6a.forward batchW = some outW6 ∧
    outW6.pair_pred = none :=
  ⟨(no_pair_bias_reconciliation kwC6 innW batchW rfl rfl).1, rfl, rfl⟩

/-- Counterexample to C8 as stated: a bucket count is configured (5) but pair
updates are disabled, and the successful forward pass carries no pair_pred. -/
theorem aux_head_not_fired_without_pair_update :
    kwW8c.num_buckets_predict_pair = some 5 ∧
    (MW8c.forward batchW).map (fun o => o.pair_pred) = some none :=
  ⟨rfl, rfl⟩

/-- Claim C8 amended: the auxiliary head is allocated, and pair_pred is
present in the output of a successful forward pass, exactly when pair updates
are enabled (after reconciliation) and a bucket count is configured; and the
gradient-carrying mean * 0 term never changes the masked coordinates. -/
theorem aux_head_gating :
    (∀ (kw : Kwargs) (inn : Innards),
        (mkProteinTransformerAF3 kw inn).pair_head_prediction.isSome =
          ((mkProteinTransformerAF3 kw inn).update_pair_repr &&
            kw.num_buckets_predict_pair.isSome)) ∧
    (∀ (M : ProteinTransformerAF3) (batch : Batch) (out : ForwardOut),
        M.forward batch = some out →
        out.pair_pred.isSome =
          (M.update_pair_repr && M.num_buckets_predict_pair.isSome)) ∧
    (∀ (M : ProteinTransformerAF3) (f : Tok) (p : Pair) (m : Mask),
        maskSeq (fun b i k => f b i k + M.mean p * 0) m = maskSeq f m) := by
  refine ⟨?_, ?_, ?_⟩
  · intro kw inn
    simp only [mkProteinTransformerAF3]
    exact isSome_boolIf _ _
  · intro M batch out h
    simp only [ProteinTransformerAF3.forward,
      ProteinTransformerAF3.forwardGivenCond] at h
    split at h
    · exact absurd h (by simp)
    · split at h
      · exact absurd h (by simp)
      · split at h
        · exact absurd h (by simp)
        · split at h
          next hguard =>
            split at h
            · obtain rfl := Option.some.inj h
              simp [hguard]
            · exact absurd h (by simp)
          next hguard =>
            obtain rfl := Option.some.inj h
            rw [Bool.not_eq_true] at hguard
            simp [hguard]
  · intro M f p m
    funext b i k
    simp [maskSeq]

/-- Witness for C8 amended, on a model with updates enabled and 5 buckets. -/
theorem aux_head_gating_witness :
    MW8a.forward batchW = some outW8 ∧
    outW8.pair_pred.isSome =
      (MW8a.update_pair_repr && MW8a.num_buckets_predict_pair.isSome) ∧
    MW8a.update_pair_repr = true ∧ MW8a.num_buckets_predict_pair = some 5 :=
  ⟨rfl, aux_head_gating.2.1 MW8a batchW outW8 rfl, rfl, rfl⟩

/-- Claim C9 (conditioning protocol): both conditioning transitions are built
with expansion factor 2 and no layer norm; each transition replaces its input
by the masked feed-forward output, with no residual term; the conditioning
tensor is the factory output refined by the two transitions in sequence and
vanishes at masked positions; and forward threads that single tensor through
the whole pass. -/
theorem conditioning_protocol :
    ∀ (kw : Kwargs) (inn : Innards) (batch : Batch),
      (mkProteinTransformerAF3 kw inn).transition_c_1.expansionFactor = 2 ∧
      (mkProteinTransformerAF3 kw inn).transition_c_2.expansionFactor = 2 ∧
      (mkProteinTransformerAF3 kw inn).transition_c_1.useLayerNorm = false ∧
      (mkProteinTransformerAF3 kw inn).transition_c_2.useLayerNorm = false ∧
      (∀ (x : Tok) (m : Mask),
          (mkProteinTransformerAF3 kw inn).transition_c_1.forward x m =
            maskSeq ((mkProteinTransformerAF3 kw inn).transition_c_1.linearOut
              ((mkProteinTransformerAF3 kw inn).transition_c_1.swishLinear x))
              m) ∧
      (∀ (x : Tok) (m : Mask),
          (mkProteinTransformerAF3 kw inn).transition_c_2.forward x m =
            maskSeq ((mkProteinTransformerAF3 kw inn).transition_c_2.linearOut
              ((mkProteinTransformerAF3 kw inn).transition_c_2.swishLinear x))
              m) ∧
      ((mkProteinTransformerAF3 kw inn).condAfterTransitions batch =
        (mkProteinTransformerAF3 kw inn).transition_c_2.forward
          ((mkProteinTransformerAF3 kw inn).transition_c_1.forward
            ((mkProteinTransformerAF3 kw inn).cond_factory batch) batch.mask)
          batch.mask) ∧
      (∀ b i d, batch.mask b i = false →
          (mkProteinTransformerAF3 kw inn).condAfterTransitions batch b i d = 0) ∧
      ((mkProteinTransformerAF3 kw inn).forward batch =
        (mkProteinTransformerAF3 kw inn).forwardGivenCond batch
          ((mkProteinTransformerAF3 kw inn).condAfterTransitions batch)) := by
  intro kw inn batch
  refine ⟨rfl, rfl, rfl, rfl, fun x m => rfl, fun x m => rfl, rfl, ?_, rfl⟩
  intro b i d hm
  exact maskSeq_of_false hm _ d

/-- Witness for C9 at a concrete model, batch and masked index. -/
theorem conditioning_protocol_witness :
    (mkProteinTransformerAF3 kwBase innW).condAfterTransitions batchW 0 1 0 = 0 ∧
    (mkProteinTransformerAF3 kwBase innW).transition_c_1.expansionFactor = 2 :=
  ⟨(conditioning_protocol kwBase innW batchW).2.2.2.2.2.2.2.1 0 1 0 rfl,
    (conditioning_protocol kwBase innW batchW).1⟩

end ProteinTransformer
